import Mathlib

/-!
# Verification of the rubric scoring engine

Shallow embedding of the tree-based rubric system:
- src/rubric/core/node.py  (RubricNode: structure, mutations, aggregation,
  score/reason caches, lazy parent-reason synthesis)
- src/rubric/core/scorer.py (LeafScorer variants: ScriptScorer and the
  LLMScorer score-extraction routine)

Scores are modelled as rationals; Python float arithmetic is treated as
exact arithmetic.  Exceptions are modelled with an explicit error type and
Except.  External effects (subprocess execution, completion requests) are
modelled by their outcomes, passed in explicitly: scorers are deterministic
for a fixed context, so a leaf carries the outcome its scorer produces
under the ambient evaluation context.
-/

/-- Python exceptions that the modelled code can raise.
ValueError is what scorer.py raises for scoring failures (the role the
spec calls ScoringError); TypeError arises from dynamic-typing violations
(unpacking a non-iterable, formatting None); timeoutExpired models
subprocess.TimeoutExpired escaping subprocess.run. -/
inductive PyExc where
  | valueError (msg : String)
  | typeError (msg : String)
  | timeoutExpired
deriving DecidableEq, Repr

/-- Runtime value returned by a scorer call, as node.py sees it: the
variants in scorer.py return a bare float, while node.py line 185 expects
a (score, reason) pair it can unpack.  Both shapes are representable so
the unpacking semantics can be modelled faithfully. -/
inductive PyObj where
  | pyFloat (q : ℚ)
  | pyPair (q : ℚ) (s : String)
deriving DecidableEq, Repr

/-- Outcome of invoking the scorer attached to a leaf under the ambient
evaluation context (scorers are deterministic given a fixed context). -/
abbrev ScorerOutcome := Except PyExc PyObj

/-- RubricNode (node.py lines 13-28): name, description, is_critical flag,
list of children, optional scorer (modelled by its call outcome), and the
two caches _score and _reason (init=False, so constructed as none).
The metadata mapping carries no behaviour touched by any claim and is
omitted. -/
inductive RubricNode where
  | mk (name description : String) (is_critical : Bool)
      (children : List RubricNode) (scorer : Option ScorerOutcome)
      (scoreCache : Option ℚ) (reasonCache : Option String)

namespace RubricNode

/-- Field accessor: name. -/
def name : RubricNode → String
  | .mk nm _ _ _ _ _ _ => nm

/-- Field accessor: description. -/
def description : RubricNode → String
  | .mk _ ds _ _ _ _ _ => ds

/-- Field accessor: is_critical. -/
def is_critical : RubricNode → Bool
  | .mk _ _ cr _ _ _ _ => cr

/-- Field accessor: children. -/
def children : RubricNode → List RubricNode
  | .mk _ _ _ cs _ _ _ => cs

/-- Field accessor: scorer. -/
def scorer : RubricNode → Option ScorerOutcome
  | .mk _ _ _ _ sc _ _ => sc

/-- Field accessor: the _score cache. -/
def scoreCache : RubricNode → Option ℚ
  | .mk _ _ _ _ _ s _ => s

/-- Field accessor: the _reason cache. -/
def reasonCache : RubricNode → Option String
  | .mk _ _ _ _ _ _ r => r

/-- is_leaf property (node.py lines 37-40): true when the children list is
empty, regardless of whether a scorer is present. -/
def is_leaf (n : RubricNode) : Bool := n.children.isEmpty

end RubricNode

/-- Scores of the critical children, in order (node.py builds
critical_scores by filtering the evaluation loop on child.is_critical).
Takes the (score, updated child) pairs produced by evaluating the
children; is_critical is untouched by evaluation so filtering the updated
children matches filtering the originals. -/
def criticalScores (results : List (ℚ × RubricNode)) : List ℚ :=
  (results.filter (fun p => p.2.is_critical)).map Prod.fst

/-- Scores of the non-critical children, in order (node.py
non_critical_scores). -/
def nonCriticalScores (results : List (ℚ × RubricNode)) : List ℚ :=
  (results.filter (fun p => !p.2.is_critical)).map Prod.fst

/-- Arithmetic mean as node.py computes it: sum(scores) / len(scores). -/
def qmean (l : List ℚ) : ℚ := l.sum / l.length

/-- Parent aggregation (node.py lines 205-224), applied to the child
evaluation results:
- veto: some critical score equals 0, parent scores 0.0;
- deference: critical set non-empty, every critical score equals 1,
  parent scores the mean of the non-critical scores, or 1.0 if none;
- otherwise the mean of all child scores, with a defensive 0.0 for an
  empty score list (line 224). -/
def aggregate (results : List (ℚ × RubricNode)) : ℚ :=
  let allScores := results.map Prod.fst
  if !(criticalScores results).isEmpty then
    if (criticalScores results).any (fun q => q == 0) then 0
    else if (criticalScores results).all (fun q => q == 1) then
      if !(nonCriticalScores results).isEmpty then qmean (nonCriticalScores results)
      else 1
    else qmean allScores
  else
    if !allScores.isEmpty then qmean allScores
    else 0

mutual

/-- compute_score (node.py lines 167-226).  A leaf (empty children, per
is_leaf) requires a scorer; its outcome is unpacked by line 185
(self._score, self._reason = self.scorer.score(**context)), which
succeeds only for a pair and raises TypeError for the bare float the
scorer.py variants return.  A parent evaluates every child in stored
order, aggregates, caches the score, and leaves _reason untouched. -/
def compute_score : RubricNode → Except PyExc (ℚ × RubricNode)
  | .mk nm ds cr [] sc _s _r =>
    match sc with
    | none => .error (.valueError "Leaf node must have a scorer")
    | some (.error e) => .error e
    | some (.ok (.pyFloat _)) =>
      .error (.typeError "cannot unpack non-iterable float object")
    | some (.ok (.pyPair q reason)) =>
      .ok (q, .mk nm ds cr [] sc (some q) (some reason))
  | .mk nm ds cr (c :: cs) sc _s r =>
    match compute_score_list (c :: cs) with
    | .error e => .error e
    | .ok results =>
      let sc' := aggregate results
      .ok (sc', .mk nm ds cr (results.map Prod.snd) sc (some sc') r)

/-- Child evaluation loop of compute_score (node.py lines 196-203):
evaluates children left to right, aborting on the first error. -/
def compute_score_list : List RubricNode → Except PyExc (List (ℚ × RubricNode))
  | [] => .ok []
  | c :: cs =>
    match compute_score c with
    | .error e => .error e
    | .ok (q, c') =>
      match compute_score_list cs with
      | .error e => .error e
      | .ok rest => .ok ((q, c') :: rest)

end

/-! ## Structural mutations (node.py lines 30-80) -/

/-- Equality test on scorer outcomes (Python compares scorer dataclasses
field by field; two scorers are equal exactly when they behave equally in
this model, so outcome equality is the faithful rendering). -/
def scorerOutcomeBeq (a b : ScorerOutcome) : Bool :=
  match a, b with
  | .ok x, .ok y => x == y
  | .error x, .error y => x == y
  | _, _ => false

mutual

/-- Dataclass equality on RubricNode (Python __eq__ generated by
dataclass compares every field, including the _score and _reason
caches). -/
def nodeBeq : RubricNode → RubricNode → Bool
  | .mk nm ds cr cs sc s r, .mk nm' ds' cr' cs' sc' s' r' =>
    nm == nm' && ds == ds' && cr == cr' && nodeBeqList cs cs' &&
    (match sc, sc' with
     | none, none => true
     | some a, some b => scorerOutcomeBeq a b
     | _, _ => false) &&
    s == s' && r == r'

/-- Elementwise dataclass equality on child lists. -/
def nodeBeqList : List RubricNode → List RubricNode → Bool
  | [], [] => true
  | x :: xs, y :: ys => nodeBeq x y && nodeBeqList xs ys
  | _, _ => false

end

/-- Node construction (node.py lines 13-35): dataclass init followed by
__post_init__, which rejects a node with both children and a scorer, and
a node with neither.  The caches start unset. -/
def mk_rubric_node (nm ds : String) (cr : Bool) (children : List RubricNode)
    (sc : Option ScorerOutcome) : Except PyExc RubricNode :=
  if !children.isEmpty && sc.isSome then
    .error (.valueError "Node cannot have both children and a scorer")
  else if children.isEmpty && !sc.isSome then
    .error (.valueError "Node must have either children or a scorer")
  else .ok (.mk nm ds cr children sc none none)

/-- add_child (node.py lines 47-58): refuses when a scorer is present,
otherwise appends the child.  No other check is performed. -/
def add_child (n c : RubricNode) : Except PyExc RubricNode :=
  match n with
  | .mk nm ds cr cs sc s r =>
    if sc.isSome then .error (.valueError "Cannot add children to a node with a scorer")
    else .ok (.mk nm ds cr (cs ++ [c]) sc s r)

/-- set_scorer (node.py lines 69-80): refuses when children are present,
otherwise installs the scorer. -/
def set_scorer (n : RubricNode) (sc : ScorerOutcome) : Except PyExc RubricNode :=
  match n with
  | .mk nm ds cr cs sc0 s r =>
    if !cs.isEmpty then .error (.valueError "Cannot set scorer on a node with children")
    else
      match sc0 with
      | _ => .ok (.mk nm ds cr cs (some sc) s r)

/-- Removal of the first occurrence of a node equal to c (Python
list.remove semantics used by remove_child). -/
def eraseFirstNode : List RubricNode → RubricNode → List RubricNode
  | [], _ => []
  | x :: xs, c => if nodeBeq x c then xs else x :: eraseFirstNode xs c

/-- remove_child (node.py lines 60-67): removes the first child equal to
the argument if one is present, silently does nothing otherwise.  No
check guards against emptying the children list. -/
def remove_child (n c : RubricNode) : RubricNode :=
  match n with
  | .mk nm ds cr cs sc s r => .mk nm ds cr (eraseFirstNode cs c) sc s r

/-- Structural invariant claimed by the spec: exactly one of
{children non-empty, scorer present}. -/
def nodeInvariant (n : RubricNode) : Bool :=
  xor (!n.children.isEmpty) n.scorer.isSome

/-! ## Object-identity model for add_child cycles

The value tree RubricNode cannot express aliasing, but node.py stores
children as references to mutable objects, so cycles are a heap
phenomenon.  NodeHeap gives each node an identifier and records, per
identifier, its child identifiers and whether it has a scorer, which is
everything add_child inspects. -/

structure NodeHeap where
  children : Nat → List Nat
  hasScorer : Nat → Bool

/-- add_child in the heap model (node.py lines 47-58): same scorer guard,
then appends the child identifier to the parent, with no ancestry
check. -/
def heapAddChild (h : NodeHeap) (p c : Nat) : Except PyExc NodeHeap :=
  if h.hasScorer p then .error (.valueError "Cannot add children to a node with a scorer")
  else .ok { h with children := fun i => if i = p then h.children p ++ [c] else h.children i }

/-- Reachability in at most fuel steps: b is a descendant of a when b is
a child of a or a descendant of a child of a. -/
def heapDescendant (h : NodeHeap) : Nat → Nat → Nat → Bool
  | 0, _, _ => false
  | fuel + 1, a, b => (h.children a).any (fun c => c == b || heapDescendant h fuel c b)

/-- Heap with two fresh scorerless parent candidates and no edges. -/
def emptyHeap : NodeHeap := { children := fun _ => [], hasScorer := fun _ => false }

/-- Adding node 0 to itself on the empty heap, then asking whether 0
became its own descendant: the demonstration that add_child admits
self-attachment. -/
def selfDescendantDemo : Bool :=
  match heapAddChild emptyHeap 0 0 with
  | .ok h => heapDescendant h 1 0 0
  | .error _ => false

/-! ## ScriptScorer (scorer.py lines 40-123) -/

/-- Outcome of the subprocess.run call made by ScriptScorer.score: either
the process completed with a return code, captured stdout and captured
stderr, or the wall-clock timeout expired. -/
inductive ProcOutcome where
  | completed (returncode : Int) (stdout stderr : String)
  | timedOut
deriving DecidableEq, Repr

/-- Numeric value of a digit string. -/
def digitsVal (cs : List Char) : ℕ :=
  cs.foldl (fun a c => a * 10 + (c.toNat - 48)) 0

/-- Python float() on the decimal and scientific literals a scoring
script prints: optional sign, digits with an optional fractional part
(at least one digit overall), optional exponent.  The special spellings
inf and nan and underscore separators are outside the model. -/
def parsePyFloat (s : String) : Option ℚ :=
  let cs := s.toList
  let (sign, cs1) : ℚ × List Char :=
    match cs with
    | '+' :: rest => (1, rest)
    | '-' :: rest => (-1, rest)
    | rest => (1, rest)
  let ipart := cs1.takeWhile Char.isDigit
  let rest1 := cs1.drop ipart.length
  let (fpart, rest2) : List Char × List Char :=
    match rest1 with
    | '.' :: rest => (rest.takeWhile Char.isDigit, rest.drop (rest.takeWhile Char.isDigit).length)
    | rest => ([], rest)
  if ipart.isEmpty && fpart.isEmpty then none
  else
    let mant : ℚ := sign * ((digitsVal ipart : ℚ) + (digitsVal fpart : ℚ) / (10 : ℚ) ^ fpart.length)
    match rest2 with
    | [] => some mant
    | e :: rest3 =>
      if e == 'e' || e == 'E' then
        let (esign, rest4) : ℤ × List Char :=
          match rest3 with
          | '+' :: t => (1, t)
          | '-' :: t => (-1, t)
          | t => (1, t)
        let eds := rest4.takeWhile Char.isDigit
        if eds.isEmpty || !(rest4.drop eds.length).isEmpty then none
        else some (mant * (10 : ℚ) ^ (esign * (digitsVal eds : ℤ)))
      else none

namespace ScriptScorer

/-- ScriptScorer.score (scorer.py lines 52-98), as a function of the
subprocess outcome.  A timeout escapes subprocess.run as
subprocess.TimeoutExpired, which the code does not catch.  A non-zero
return code raises ValueError with the captured stderr.  The stripped
stdout is parsed as a float; an unparseable or out-of-range value raises
ValueError naming the stripped stdout (the inner range ValueError of
line 91 is caught by the except on line 93 and re-raised with the
Invalid score output message). -/
def score (outcome : ProcOutcome) : Except PyExc ℚ :=
  match outcome with
  | .timedOut => .error .timeoutExpired
  | .completed rc out err =>
    if rc != 0 then .error (.valueError ("Script execution failed: " ++ err))
    else
      match parsePyFloat out.trim with
      | none => .error (.valueError ("Invalid score output: " ++ out.trim))
      | some q =>
        if 0 ≤ q ∧ q ≤ 1 then .ok q
        else .error (.valueError ("Invalid score output: " ++ out.trim))

end ScriptScorer

/-- Classifier for the exception family scorer.py uses for scoring
failures (the ValueError role the spec names ScoringError). -/
def isScoringError : PyExc → Bool
  | .valueError _ => true
  | _ => false

/-! ## Score property and reset_scores (node.py lines 228-246) -/

/-- score property (node.py lines 228-232): the cached value, or the
default 0.0 when the cache is unset. -/
def RubricNode.score (n : RubricNode) : ℚ := n.scoreCache.getD 0

mutual

/-- reset_scores (node.py lines 241-246): clears both caches on the node
and recursively on every descendant. -/
def reset_scores : RubricNode → RubricNode
  | .mk nm ds cr cs sc _ _ => .mk nm ds cr (reset_scores_list cs) sc none none

/-- reset_scores applied to each child. -/
def reset_scores_list : List RubricNode → List RubricNode
  | [] => []
  | c :: cs => reset_scores c :: reset_scores_list cs

end

mutual

/-- Both caches are unset on this node and every descendant. -/
def allCachesCleared : RubricNode → Bool
  | .mk _ _ _ cs _ s r => s.isNone && r.isNone && allCachesClearedList cs

/-- allCachesCleared on each element of a list. -/
def allCachesClearedList : List RubricNode → Bool
  | [] => true
  | c :: cs => allCachesCleared c && allCachesClearedList cs

end

/-! ## Lazy parent reason synthesis (node.py lines 98-165 and 234-239)

The completion service is modelled by the outcome its explanation request
produces (Except Unit String: the text on success, an exception
otherwise).  Reading the reason property returns the reason together with
the updated node and the number of explanation requests issued and
warnings emitted during the read. -/

/-- Two-decimal rendering of a score, modelling the Python format
specifier .2f for the nonnegative scores that occur. -/
def fmt2 (q : ℚ) : String :=
  let m : ℤ := Int.floor (q * 100 + 1 / 2)
  let sign := if m < 0 then "-" else ""
  let a := m.natAbs
  sign ++ toString (a / 100) ++ "." ++ (if a % 100 < 10 then "0" else "") ++ toString (a % 100)

/-- Templated fallback reason (node.py lines 162-165).  The source builds
it from two adjacent string literals with no separating space, hence
sub-criteria glued to the count. -/
def mkFallback (sc : ℚ) (numChildren : ℕ) : String :=
  "Score " ++ fmt2 sc ++ " based on performance across " ++ toString numChildren ++ "sub-criteria"

mutual

/-- reason property read (node.py lines 234-239).  A cached reason is
returned as is.  A leaf with no cached reason returns the default text
without caching it.  A parent with no cached reason runs
_generate_parent_reason (lines 98-165): it first packages every child,
reading each child reason recursively (which can itself generate and
cache), then formats its own _score into the prompt (TypeError when the
score cache is unset, outside the try block), then issues exactly one
explanation request; the stripped response, or on any request failure a
warning plus the templated fallback, becomes the cached reason.  The
result quadruple is (reason, updated node, requests issued, warnings
emitted). -/
def read_reason (llm : Except Unit String) :
    RubricNode → Except PyExc (String × RubricNode × ℕ × ℕ)
  | .mk nm ds cr cs sc s r =>
    match r with
    | some reason => .ok (reason, .mk nm ds cr cs sc s (some reason), 0, 0)
    | none =>
      match cs with
      | [] => .ok ("No reason available yet", .mk nm ds cr [] sc s none, 0, 0)
      | c :: cs' =>
        match read_reason_list llm (c :: cs') with
        | .error e => .error e
        | .ok (children', req, warn) =>
          match s with
          | none => .error (.typeError "unsupported format string passed to NoneType.__format__")
          | some scv =>
            match llm with
            | .ok text =>
              .ok (text.trim, .mk nm ds cr children' sc s (some text.trim), req + 1, warn)
            | .error _ =>
              .ok (mkFallback scv (c :: cs').length,
                .mk nm ds cr children' sc s (some (mkFallback scv (c :: cs').length)),
                req + 1, warn + 1)

/-- Child packaging loop of _generate_parent_reason (node.py lines
111-119): reads each child reason in order, threading cache updates and
accumulating request and warning counts. -/
def read_reason_list (llm : Except Unit String) :
    List RubricNode → Except PyExc (List RubricNode × ℕ × ℕ)
  | [] => .ok ([], 0, 0)
  | c :: cs =>
    match read_reason llm c with
    | .error e => .error e
    | .ok (_, c', r1, w1) =>
      match read_reason_list llm cs with
      | .error e => .error e
      | .ok (cs', r2, w2) => .ok (c' :: cs', r1 + r2, w1 + w2)

end

/-! ## LLMScorer score extraction (scorer.py lines 199-236)

The three patterns tried by _extract_score_from_response are specialised
matchers here, reproducing the Python re semantics they exercise:
leftmost match, alternatives in written order, greedy quantifiers with
backtracking, word boundaries for the first pattern, case-insensitive
literal for the second.  findall collects matches left to right and the
code uses matches[0], so only the leftmost match is needed. -/

/-- Word character for the re word boundary: letters, digits,
underscore. -/
def isWordChar (c : Char) : Bool := c.isAlphanum || c == '_'

/-- Word boundary immediately before a position, given the preceding
character (none at the start of the text); the match itself starts with
a word character in all alternatives. -/
def boundaryBefore : Option Char → Bool
  | none => true
  | some c => !isWordChar c

/-- Word boundary immediately after a match ending where cs begins; the
match itself ends with a word character in all alternatives. -/
def boundaryAfter : List Char → Bool
  | [] => true
  | c :: _ => !isWordChar c

/-- First regex at one position: the alternation 0 dot digits, 1 dot
zeros, 0, 1, in written order, each bracketed by word boundaries.
Backtracking a greedy digit run below its maximum puts a digit after the
match, which is never a boundary, so each alternative reduces to its
maximal run plus a boundary check. -/
def matchAAt (prev : Option Char) (cs : List Char) : Option String :=
  if !boundaryBefore prev then none
  else
    (match cs with
     | '0' :: '.' :: rest =>
       let ds := rest.takeWhile Char.isDigit
       if !ds.isEmpty && boundaryAfter (rest.drop ds.length) then
         some (String.mk ('0' :: '.' :: ds))
       else none
     | _ => none) <|>
    (match cs with
     | '1' :: '.' :: rest =>
       let zs := rest.takeWhile (fun c => c == '0')
       if !zs.isEmpty && boundaryAfter (rest.drop zs.length) then
         some (String.mk ('1' :: '.' :: zs))
       else none
     | _ => none) <|>
    (match cs with
     | '0' :: rest => if boundaryAfter rest then some "0" else none
     | _ => none) <|>
    (match cs with
     | '1' :: rest => if boundaryAfter rest then some "1" else none
     | _ => none)

/-- Leftmost match of the first pattern: scan positions left to right,
tracking the previous character for the boundary test. -/
def scanA : Option Char → List Char → Option String
  | _, [] => none
  | prev, c :: rest =>
    match matchAAt prev (c :: rest) with
    | some s => some s
    | none => scanA (some c) rest

/-- Literal occurrence of lit at the head of cs. -/
def litAt (cs lit : List Char) : Bool := lit.isPrefixOf cs

/-- Descending enumeration n, n-1, ..., 0: the order in which a greedy
quantifier tries its lengths. -/
def rangeDown (n : ℕ) : List ℕ := (List.range (n + 1)).reverse

/-- The number group digits* dot? digits+ followed by the literal lit,
matched at one position with full backtracking in regex order: the
leading digit run from longest to empty; at each choice the optional dot
taken before skipped; the trailing digit run from longest down to one.
Returns the group text of the first successful configuration. -/
def tryNum (cs : List Char) (lit : List Char) : Option String :=
  let amax := (cs.takeWhile Char.isDigit).length
  (rangeDown amax).findSome? (fun a =>
    let rest1 := cs.drop a
    let dotBranch : Option String :=
      match rest1 with
      | '.' :: rest2 =>
        let bmax := (rest2.takeWhile Char.isDigit).length
        (rangeDown bmax).findSome? (fun b =>
          if 1 ≤ b ∧ litAt (rest2.drop b) lit then
            some (String.mk (cs.take a ++ '.' :: rest2.take b))
          else none)
      | _ => none
    match dotBranch with
    | some s => some s
    | none =>
      (rangeDown (amax - a)).findSome? (fun b =>
        if 1 ≤ b ∧ litAt (cs.drop (a + b)) lit then
          some (String.mk (cs.take (a + b)))
        else none))

/-- Case-insensitive comparison of a text head against a lowercase
word. -/
def lowerEq (cs : List Char) (word : List Char) : Bool :=
  (cs.take word.length).map Char.toLower == word

/-- Leftmost match of the second pattern: the literal score
(case-insensitive), a greedy run of colons and whitespace, then the
number group.  Shortening the separator run never helps, because the
group must begin with a digit or a dot, which the separator class
excludes, so only the maximal run is tried. -/
def scanB : List Char → Option String
  | [] => none
  | c :: rest =>
    if lowerEq (c :: rest) ['s', 'c', 'o', 'r', 'e'] then
      let after := (c :: rest).drop 5
      let sep := after.takeWhile (fun ch => ch == ':' || ch.isWhitespace)
      match tryNum (after.drop sep.length) [] with
      | some g => some g
      | none => scanB rest
    else scanB rest

/-- Leftmost match of the third pattern: the number group followed by
the literal slash one zero. -/
def scanC : List Char → Option String
  | [] => none
  | c :: rest =>
    match tryNum (c :: rest) ['/', '1', '0'] with
    | some g => some g
    | none => scanC rest

/-- Substring occurrence test, modelling the Python in operator on
strings. -/
def listContainsSub : List Char → List Char → Bool
  | [], sub => sub.isEmpty
  | c :: rest, sub => litAt (c :: rest) sub || listContainsSub rest sub

/-- Loop body of _extract_score_from_response (scorer.py lines 220-234)
for one pattern: its first match, if any, is parsed as a float, divided
by 10 when the whole response contains the substring slash one zero and
the value exceeds 1, and accepted exactly when the result lies in
[0,1]. -/
def patternScore (response : String) (g? : Option String) : Option ℚ :=
  match g? with
  | none => none
  | some g =>
    match parsePyFloat g with
    | none => none
    | some q =>
      let q' := if listContainsSub response.toList ['/', '1', '0'] ∧ 1 < q then q / 10 else q
      if 0 ≤ q' ∧ q' ≤ 1 then some q' else none

/-- LLMScorer._extract_score_from_response (scorer.py lines 199-236):
the three patterns are tried in order and the first one whose first
match is accepted by the loop body determines the score; if none is,
ValueError citing the raw response is raised. -/
def extract_score_from_response (response : String) : Except PyExc ℚ :=
  let cs := response.toList
  match patternScore response (scanA none cs) with
  | some q => .ok q
  | none =>
    match patternScore response (scanB cs) with
    | some q => .ok q
    | none =>
      match patternScore response (scanC cs) with
      | some q => .ok q
      | none => .error (.valueError ("Could not extract valid score from response: " ++ response))

/-- Extraction as the claim words it: the same three patterns in order,
but with the division by 10 attached to the third pattern alone,
applied when its extracted value exceeds 1; the first pattern yielding
an in-range value wins. -/
def extract_score_claim (response : String) : Except PyExc ℚ :=
  let cs := response.toList
  let fromPlain : Option String → Option ℚ := fun g? =>
    match g? with
    | none => none
    | some g =>
      match parsePyFloat g with
      | none => none
      | some q => if 0 ≤ q ∧ q ≤ 1 then some q else none
  let fromOver10 : Option String → Option ℚ := fun g? =>
    match g? with
    | none => none
    | some g =>
      match parsePyFloat g with
      | none => none
      | some q =>
        let q' := if 1 < q then q / 10 else q
        if 0 ≤ q' ∧ q' ≤ 1 then some q' else none
  match fromPlain (scanA none cs) with
  | some q => .ok q
  | none =>
    match fromPlain (scanB cs) with
    | some q => .ok q
    | none =>
      match fromOver10 (scanC cs) with
      | some q => .ok q
      | none => .error (.valueError ("Could not extract valid score from response: " ++ response))

/-- Candidate group of each pattern, in the order the code tries
them. -/
def patternCandidates (response : String) : List (Option String) :=
  [scanA none response.toList, scanB response.toList, scanC response.toList]

/-- Normalisation as the code performs it, for any pattern: divide by 10
exactly when the response contains the substring slash one zero and the
value exceeds 1. -/
def normalizeExtracted (response : String) (q : ℚ) : ℚ :=
  if listContainsSub response.toList ['/', '1', '0'] ∧ 1 < q then q / 10 else q

/-- Per-pattern step as the amended claim words it: parse the candidate,
normalise it, keep it when in range. -/
def amendedPatternScore (response : String) (g? : Option String) : Option ℚ :=
  ((g?.bind parsePyFloat).map (normalizeExtracted response)).bind
    (fun q => if 0 ≤ q ∧ q ≤ 1 then some q else none)

/-- Extraction as the amended claim words it: the first pattern, in
order, whose parsed and normalised candidate lies in [0,1] determines
the score; the division by 10 applies to the value extracted by any
pattern, whenever the response contains the substring slash one zero and
the value exceeds 1; if no pattern yields an in-range value, ValueError
citing the raw response is raised. -/
def extract_score_amended (response : String) : Except PyExc ℚ :=
  match (patternCandidates response).findSome? (amendedPatternScore response) with
  | some q => .ok q
  | none => .error (.valueError ("Could not extract valid score from response: " ++ response))

/-! ## Aggregation lemmas -/

/-- A critical child score of exactly 0 forces the aggregate to 0. -/
lemma aggregate_eq_zero (results : List (ℚ × RubricNode))
    (h : ∃ p ∈ results, p.2.is_critical = true ∧ p.1 = 0) :
    aggregate results = 0 := by
  obtain ⟨p, hp, hc, h0⟩ := h
  have hmem : (0 : ℚ) ∈ criticalScores results :=
    List.mem_map.mpr ⟨p, List.mem_filter.mpr ⟨hp, hc⟩, h0⟩
  have hne : (criticalScores results).isEmpty = false := by
    cases hcs : criticalScores results with
    | nil => rw [hcs] at hmem; cases hmem
    | cons x xs => rfl
  have hany : (criticalScores results).any (fun q => q == 0) = true :=
    List.any_eq_true.mpr ⟨0, hmem, by simp⟩
  unfold aggregate
  simp [hne, hany]

/-- When the critical set is non-empty and every critical score is
exactly 1, the aggregate is the mean of the non-critical scores, or 1
when there are none. -/
lemma aggregate_deference (results : List (ℚ × RubricNode))
    (hne : criticalScores results ≠ [])
    (hall : ∀ q ∈ criticalScores results, q = 1) :
    aggregate results =
      if (nonCriticalScores results).isEmpty then 1
      else qmean (nonCriticalScores results) := by
  have h1 : (criticalScores results).isEmpty = false := by
    cases hcs : criticalScores results with
    | nil => exact absurd hcs hne
    | cons x xs => rfl
  have hany : (criticalScores results).any (fun q => q == 0) = false := by
    rw [List.any_eq_false]
    intro q hq
    simp [hall q hq]
  have hallb : (criticalScores results).all (fun q => q == 1) = true :=
    List.all_eq_true.mpr fun q hq => by simp [hall q hq]
  unfold aggregate
  simp only [h1, Bool.not_false, if_true, hany, Bool.false_eq_true, if_false, hallb]
  cases h2 : (nonCriticalScores results).isEmpty <;> simp [h2]

/-- In the remaining cases (no critical children, or critical scores
that include neither a 0-forced veto nor unanimous 1), the aggregate is
the mean of all scores. -/
lemma aggregate_mean (results : List (ℚ × RubricNode)) (hres : results ≠ [])
    (h : criticalScores results = [] ∨
      ((∀ q ∈ criticalScores results, q ≠ 0) ∧ ∃ q ∈ criticalScores results, q ≠ 1)) :
    aggregate results = qmean (results.map Prod.fst) := by
  have hallne : (results.map Prod.fst).isEmpty = false := by
    cases results with
    | nil => exact absurd rfl hres
    | cons x xs => rfl
  unfold aggregate
  rcases h with hnil | ⟨h0, q, hq, hq1⟩
  · simp [hnil, hallne]
  · have h1 : (criticalScores results).isEmpty = false := by
      cases hcs : criticalScores results with
      | nil => rw [hcs] at hq; cases hq
      | cons x xs => rfl
    have hany : (criticalScores results).any (fun x => x == 0) = false := by
      rw [List.any_eq_false]
      intro x hx
      simp [h0 x hx]
    have hallb : (criticalScores results).all (fun x => x == 1) = false := by
      rw [List.all_eq_false]
      exact ⟨q, hq, by simp [hq1]⟩
    simp [h1, hany, hallb]

/-- Evaluating a non-empty child list yields a non-empty result list. -/
lemma compute_score_list_cons_ne_nil {c : RubricNode} {cs : List RubricNode}
    {results : List (ℚ × RubricNode)}
    (h : compute_score_list (c :: cs) = .ok results) : results ≠ [] := by
  simp only [compute_score_list] at h
  cases h1 : compute_score c with
  | error e => rw [h1] at h; cases h
  | ok p =>
    obtain ⟨q, c'⟩ := p
    rw [h1] at h
    cases h2 : compute_score_list cs with
    | error e => rw [h2] at h; cases h
    | ok rest =>
      rw [h2] at h
      cases h
      simp

/-! ## Claim theorems -/

/-- C1: the claim says every leaf scorer variant returns a (score,
reason) pair that a leaf evaluation stores.  The scorer.py variants
return a bare float (their common signature is score(context) -> float),
and node.py line 185 unpacks that return value into (_score, _reason),
which for a float raises TypeError: evaluating a leaf whose scorer
successfully returns the float 0.8 fails instead of storing a pair. -/
theorem leaf_scorer_pair_contract_fails :
    compute_score (RubricNode.mk "criterion" "desc" false []
        (some (.ok (.pyFloat (4 / 5)))) none none) =
      .error (.typeError "cannot unpack non-iterable float object") := rfl

/-- C2: veto rule.  For every parent node (non-empty child list) whose
children all evaluate successfully, if some critical child computes a
score of exactly 0, compute_score scores the parent 0.0 and caches it,
regardless of every other child score. -/
theorem veto_rule (nm ds : String) (cr : Bool) (c : RubricNode) (cs : List RubricNode)
    (sc : Option ScorerOutcome) (s : Option ℚ) (r : Option String)
    (results : List (ℚ × RubricNode))
    (hlist : compute_score_list (c :: cs) = .ok results)
    (hzero : ∃ p ∈ results, p.2.is_critical = true ∧ p.1 = 0) :
    ∃ n', compute_score (RubricNode.mk nm ds cr (c :: cs) sc s r) = .ok (0, n') ∧
      n'.scoreCache = some 0 := by
  refine ⟨.mk nm ds cr (results.map Prod.snd) sc (some 0) r, ?_, rfl⟩
  have hagg := aggregate_eq_zero results hzero
  simp [compute_score, hlist, hagg]

/-- Critical leaf scoring 0 with its evaluated form. -/
def vetoLeafA : RubricNode :=
  .mk "gate" "critical gate" true [] (some (.ok (.pyPair 0 "failed"))) none none

/-- Evaluated form of vetoLeafA. -/
def vetoLeafA' : RubricNode :=
  .mk "gate" "critical gate" true [] (some (.ok (.pyPair 0 "failed"))) (some 0) (some "failed")

/-- Non-critical leaf scoring 0.9 with its evaluated form. -/
def vetoLeafB : RubricNode :=
  .mk "quality" "advisory" false [] (some (.ok (.pyPair (9 / 10) "good"))) none none

/-- Evaluated form of vetoLeafB. -/
def vetoLeafB' : RubricNode :=
  .mk "quality" "advisory" false [] (some (.ok (.pyPair (9 / 10) "good"))) (some (9 / 10)) (some "good")

/-- Witness for C2: a parent with a critical child at 0 and a
non-critical child at 0.9 scores 0. -/
theorem veto_rule_witness :
    ∃ n', compute_score (RubricNode.mk "p" "d" false [vetoLeafA, vetoLeafB] none none none) =
      .ok (0, n') ∧ n'.scoreCache = some 0 :=
  veto_rule "p" "d" false vetoLeafA [vetoLeafB] none none none
    [(0, vetoLeafA'), (9 / 10, vetoLeafB')] rfl
    ⟨(0, vetoLeafA'), List.mem_cons_self _ _, rfl, rfl⟩

/-- C3: deference rule.  For every parent node whose children all
evaluate successfully, when the critical score list is non-empty and
every critical child computes exactly 1, compute_score scores the parent
the arithmetic mean of the non-critical child scores, or 1.0 when every
child is critical, and caches it. -/
theorem deference_rule (nm ds : String) (cr : Bool) (c : RubricNode) (cs : List RubricNode)
    (sc : Option ScorerOutcome) (s : Option ℚ) (r : Option String)
    (results : List (ℚ × RubricNode))
    (hlist : compute_score_list (c :: cs) = .ok results)
    (hcrit : criticalScores results ≠ [])
    (hall : ∀ q ∈ criticalScores results, q = 1) :
    ∃ n', compute_score (RubricNode.mk nm ds cr (c :: cs) sc s r) =
      .ok (if (nonCriticalScores results).isEmpty then 1
           else qmean (nonCriticalScores results), n') ∧
      n'.scoreCache = some (if (nonCriticalScores results).isEmpty then 1
           else qmean (nonCriticalScores results)) := by
  refine ⟨.mk nm ds cr (results.map Prod.snd) sc
    (some (if (nonCriticalScores results).isEmpty then 1
           else qmean (nonCriticalScores results))) r, ?_, rfl⟩
  have hagg := aggregate_deference results hcrit hall
  simp [compute_score, hlist, hagg]

/-- Critical leaf scoring exactly 1 with its evaluated form. -/
def defLeafA : RubricNode :=
  .mk "gate" "critical gate" true [] (some (.ok (.pyPair 1 "pass"))) none none

/-- Evaluated form of defLeafA. -/
def defLeafA' : RubricNode :=
  .mk "gate" "critical gate" true [] (some (.ok (.pyPair 1 "pass"))) (some 1) (some "pass")

/-- Non-critical leaf scoring 0.8 with its evaluated form. -/
def defLeafB : RubricNode :=
  .mk "styleB" "advisory" false [] (some (.ok (.pyPair (4 / 5) "fine"))) none none

/-- Evaluated form of defLeafB. -/
def defLeafB' : RubricNode :=
  .mk "styleB" "advisory" false [] (some (.ok (.pyPair (4 / 5) "fine"))) (some (4 / 5)) (some "fine")

/-- Non-critical leaf scoring 0.6 with its evaluated form. -/
def defLeafC : RubricNode :=
  .mk "styleC" "advisory" false [] (some (.ok (.pyPair (3 / 5) "meh"))) none none

/-- Evaluated form of defLeafC. -/
def defLeafC' : RubricNode :=
  .mk "styleC" "advisory" false [] (some (.ok (.pyPair (3 / 5) "meh"))) (some (3 / 5)) (some "meh")

/-- Witness for C3, the Scenario A shape: critical child at 1.0,
non-critical children at 0.8 and 0.6. -/
theorem deference_rule_witness :
    ∃ n', compute_score (RubricNode.mk "p" "d" false [defLeafA, defLeafB, defLeafC] none none none) =
      .ok (if (nonCriticalScores [(1, defLeafA'), (4 / 5, defLeafB'), (3 / 5, defLeafC')]).isEmpty
           then 1
           else qmean (nonCriticalScores [(1, defLeafA'), (4 / 5, defLeafB'), (3 / 5, defLeafC')]),
           n') ∧
      n'.scoreCache =
        some (if (nonCriticalScores [(1, defLeafA'), (4 / 5, defLeafB'), (3 / 5, defLeafC')]).isEmpty
           then 1
           else qmean (nonCriticalScores [(1, defLeafA'), (4 / 5, defLeafB'), (3 / 5, defLeafC')])) :=
  deference_rule "p" "d" false defLeafA [defLeafB, defLeafC] none none none
    [(1, defLeafA'), (4 / 5, defLeafB'), (3 / 5, defLeafC')] rfl
    (by decide) (by decide)

/-- C4 counterexample: the claim says a childless parent defensively
scores 0.0, but a node with no children is a leaf for compute_score
(is_leaf is children empty), so a childless scorerless node raises the
missing-scorer ValueError instead of returning 0.0; the defensive
branch at node.py line 224 is unreachable. -/
theorem childless_parent_cex :
    compute_score (RubricNode.mk "empty" "no children and no scorer" false [] none none none) =
      .error (.valueError "Leaf node must have a scorer") := rfl

/-- C4 as amended: for every parent in neither the veto nor the
deference case (mixed critical performance, or no critical children),
compute_score scores the arithmetic mean of all child scores and caches
it; a childless node instead takes the leaf path and fails with the
missing-scorer ValueError when no scorer is present. -/
theorem mean_rule_amended :
    (∀ (nm ds : String) (cr : Bool) (c : RubricNode) (cs : List RubricNode)
       (sc : Option ScorerOutcome) (s : Option ℚ) (r : Option String)
       (results : List (ℚ × RubricNode)),
      compute_score_list (c :: cs) = .ok results →
      (criticalScores results = [] ∨
        ((∀ q ∈ criticalScores results, q ≠ 0) ∧ ∃ q ∈ criticalScores results, q ≠ 1)) →
      ∃ n', compute_score (RubricNode.mk nm ds cr (c :: cs) sc s r) =
        .ok (qmean (results.map Prod.fst), n') ∧
        n'.scoreCache = some (qmean (results.map Prod.fst))) ∧
    (∀ (nm ds : String) (cr : Bool) (s : Option ℚ) (r : Option String),
      compute_score (RubricNode.mk nm ds cr [] none s r) =
        .error (.valueError "Leaf node must have a scorer")) := by
  constructor
  · intro nm ds cr c cs sc s r results hlist hside
    refine ⟨.mk nm ds cr (results.map Prod.snd) sc (some (qmean (results.map Prod.fst))) r, ?_, rfl⟩
    have hagg := aggregate_mean results (compute_score_list_cons_ne_nil hlist) hside
    simp [compute_score, hlist, hagg]
  · intro nm ds cr s r
    simp [compute_score]

/-- Critical leaf scoring 0.5 (mixed critical performance) with its
evaluated form. -/
def mixLeafA : RubricNode :=
  .mk "gate" "critical gate" true [] (some (.ok (.pyPair (1 / 2) "half"))) none none

/-- Evaluated form of mixLeafA. -/
def mixLeafA' : RubricNode :=
  .mk "gate" "critical gate" true [] (some (.ok (.pyPair (1 / 2) "half"))) (some (1 / 2)) (some "half")

/-- Non-critical leaf scoring 0.9 with its evaluated form. -/
def mixLeafB : RubricNode :=
  .mk "quality" "advisory" false [] (some (.ok (.pyPair (9 / 10) "good"))) none none

/-- Evaluated form of mixLeafB. -/
def mixLeafB' : RubricNode :=
  .mk "quality" "advisory" false [] (some (.ok (.pyPair (9 / 10) "good"))) (some (9 / 10)) (some "good")

/-- Witness for the amended C4: a mixed parent (critical child at 0.5,
non-critical at 0.9) scores the mean of all children, and the childless
scorerless node fails. -/
theorem mean_rule_amended_witness :
    (∃ n', compute_score (RubricNode.mk "p" "d" false [mixLeafA, mixLeafB] none none none) =
      .ok (qmean ([(1 / 2, mixLeafA'), (9 / 10, mixLeafB')].map Prod.fst), n') ∧
      n'.scoreCache = some (qmean ([(1 / 2, mixLeafA'), (9 / 10, mixLeafB')].map Prod.fst))) ∧
    compute_score (RubricNode.mk "e" "d" false [] none none none) =
      .error (.valueError "Leaf node must have a scorer") :=
  ⟨mean_rule_amended.1 "p" "d" false mixLeafA [mixLeafB] none none none
      [(1 / 2, mixLeafA'), (9 / 10, mixLeafB')] rfl
      (Or.inr ⟨by
          intro q hq
          simp [criticalScores, mixLeafA', mixLeafB', RubricNode.is_critical] at hq
          rw [hq]; norm_num,
        ⟨1 / 2, by simp [criticalScores, mixLeafA', mixLeafB', RubricNode.is_critical],
          by norm_num⟩⟩),
    mean_rule_amended.2 "e" "d" false none none⟩

/-- Leaf used to demonstrate remove_child emptying a parent. -/
def soloChild : RubricNode := .mk "c" "d" false [] (some (.ok (.pyFloat 1))) none none

/-- Parent holding exactly one child and no scorer. -/
def soloParent : RubricNode := .mk "p" "d" false [soloChild] none none none

/-- C5 counterexample: the claim says every mutation, remove_child
included, preserves the exactly-one invariant, but removing the only
child of a valid parent leaves a node with neither children nor scorer
(node.py lines 60-67 perform no such check). -/
theorem remove_child_invariant_cex :
    nodeInvariant soloParent = true ∧
    nodeInvariant (remove_child soloParent soloChild) = false := ⟨rfl, rfl⟩

/-- C5 as amended: construction succeeds exactly on configurations
satisfying the exactly-one invariant and establishes it; add_child
succeeds exactly on scorerless nodes and preserves the invariant;
set_scorer succeeds exactly on childless nodes and preserves it;
remove_child either preserves the invariant or, when it removes the
last remaining child, leaves a node with neither children nor
scorer. -/
theorem structural_invariant_amended :
    (∀ (nm ds : String) (cr : Bool) (cs : List RubricNode) (sc : Option ScorerOutcome),
      (∃ n, mk_rubric_node nm ds cr cs sc = .ok n) ↔
        nodeInvariant (.mk nm ds cr cs sc none none) = true) ∧
    (∀ (nm ds : String) (cr : Bool) (cs : List RubricNode) (sc : Option ScorerOutcome)
       (n : RubricNode), mk_rubric_node nm ds cr cs sc = .ok n →
      n = .mk nm ds cr cs sc none none) ∧
    (∀ n c : RubricNode, (∃ n', add_child n c = .ok n') ↔ n.scorer.isSome = false) ∧
    (∀ n c n' : RubricNode, add_child n c = .ok n' →
      nodeInvariant n = true → nodeInvariant n' = true) ∧
    (∀ (n : RubricNode) (sc : ScorerOutcome),
      (∃ n', set_scorer n sc = .ok n') ↔ n.children.isEmpty = true) ∧
    (∀ (n : RubricNode) (sc : ScorerOutcome) (n' : RubricNode), set_scorer n sc = .ok n' →
      nodeInvariant n = true → nodeInvariant n' = true) ∧
    (∀ n c : RubricNode, nodeInvariant n = true →
      (nodeInvariant (remove_child n c) = true ∨
        ((remove_child n c).children = [] ∧ (remove_child n c).scorer = none))) := by
  refine ⟨?_, ?_, ?_, ?_, ?_, ?_, ?_⟩
  · intro nm ds cr cs sc
    cases cs <;> cases sc <;>
      simp [mk_rubric_node, nodeInvariant, RubricNode.children, RubricNode.scorer]
  · intro nm ds cr cs sc n h
    cases cs <;> cases sc <;>
      simp [mk_rubric_node] at h <;> exact h.symm
  · intro n c
    cases n with
    | mk nm ds cr cs sc s r =>
      cases sc <;> simp [add_child, RubricNode.scorer]
  · intro n c n' h hinv
    cases n with
    | mk nm ds cr cs sc s r =>
      cases sc with
      | some sc0 => simp [add_child] at h
      | none =>
        simp [add_child] at h
        subst h
        cases cs <;> simp [nodeInvariant, RubricNode.children, RubricNode.scorer]
  · intro n sc
    cases n with
    | mk nm ds cr cs sc0 s r =>
      cases cs <;> simp [set_scorer, RubricNode.children]
  · intro n sc n' h hinv
    cases n with
    | mk nm ds cr cs sc0 s r =>
      cases cs with
      | cons x xs => simp [set_scorer] at h
      | nil =>
        simp [set_scorer] at h
        subst h
        simp [nodeInvariant, RubricNode.children, RubricNode.scorer]
  · intro n c hinv
    cases n with
    | mk nm ds cr cs sc s r =>
      cases sc with
      | some sc0 =>
        have hcs : cs = [] := by
          cases cs with
          | nil => rfl
          | cons x xs => simp [nodeInvariant, RubricNode.children, RubricNode.scorer] at hinv
        subst hcs
        left
        simpa [remove_child, eraseFirstNode] using hinv
      | none =>
        cases h' : eraseFirstNode cs c with
        | nil =>
          right
          simp [remove_child, h', RubricNode.children, RubricNode.scorer]
        | cons x xs =>
          left
          simp [remove_child, h', nodeInvariant, RubricNode.children, RubricNode.scorer]

/-- Witness for the amended C5: constructing a valid leaf, adding a
child to a scorerless node, setting a scorer on a childless node, and
removing one of two children all leave the invariant intact. -/
theorem structural_invariant_amended_witness :
    ((∃ n, mk_rubric_node "l" "d" false [] (some (.ok (.pyFloat 1))) = .ok n) ↔
      nodeInvariant (.mk "l" "d" false [] (some (.ok (.pyFloat 1))) none none) = true) ∧
    (nodeInvariant (.mk "p" "d" false [soloChild, soloChild] none none none) = true →
      nodeInvariant (remove_child (.mk "p" "d" false [soloChild, soloChild] none none none)
          soloChild) = true ∨
        ((remove_child (.mk "p" "d" false [soloChild, soloChild] none none none)
            soloChild).children = [] ∧
          (remove_child (.mk "p" "d" false [soloChild, soloChild] none none none)
            soloChild).scorer = none)) :=
  ⟨structural_invariant_amended.1 "l" "d" false [] (some (.ok (.pyFloat 1))),
    structural_invariant_amended.2.2.2.2.2.2
      (.mk "p" "d" false [soloChild, soloChild] none none none) soloChild⟩

/-- C6 counterexample: the claim says no sequence of operations can
attach a node as its own descendant.  On a heap of fresh scorerless
nodes, add_child applied to one node and itself succeeds (the only
guard, node.py line 56, checks for a scorer) and makes the node its own
child, hence its own descendant. -/
theorem add_child_self_cycle_cex : selfDescendantDemo = true := rfl

/-- C6 as amended: add_child succeeds exactly when the target node has
no scorer and then appends the child reference unconditionally; it
performs no ancestry check, so a node can be attached as its own
descendant, as the self-attachment demonstration shows. -/
theorem add_child_no_cycle_check_amended :
    (∀ (h : NodeHeap) (p c : Nat), h.hasScorer p = true →
      heapAddChild h p c = .error (.valueError "Cannot add children to a node with a scorer")) ∧
    (∀ (h : NodeHeap) (p c : Nat) (h' : NodeHeap), heapAddChild h p c = .ok h' →
      h'.children p = h.children p ++ [c]) ∧
    selfDescendantDemo = true := by
  refine ⟨?_, ?_, rfl⟩
  · intro h p c hsc
    simp [heapAddChild, hsc]
  · intro h p c h' hok
    cases hsc : h.hasScorer p with
    | true => simp [heapAddChild, hsc] at hok
    | false =>
      simp [heapAddChild, hsc] at hok
      subst hok
      simp

/-- Witness for the amended C6: a scored node rejects children, and a
successful add appends the new child identifier. -/
theorem add_child_no_cycle_check_amended_witness :
    (heapAddChild { children := fun _ => [], hasScorer := fun _ => true } 0 1 =
      .error (.valueError "Cannot add children to a node with a scorer")) ∧
    selfDescendantDemo = true :=
  ⟨add_child_no_cycle_check_amended.1
      { children := fun _ => [], hasScorer := fun _ => true } 0 1 rfl,
    add_child_no_cycle_check_amended.2.2⟩

/-- C7 counterexample: the claim says a timeout raises a ScoringError
carrying captured diagnostic output, but scorer.py does not catch
subprocess.TimeoutExpired, so a timed-out script escapes as the timeout
exception, not the ValueError family used for scoring failures, and no
captured output accompanies it. -/
theorem script_timeout_cex :
    ScriptScorer.score .timedOut = .error .timeoutExpired ∧
    isScoringError .timeoutExpired = false := ⟨rfl, rfl⟩

/-- C7 as amended: a non-zero exit raises ValueError carrying the
captured stderr; an unparseable stdout or a parsed value outside [0,1]
raises ValueError naming the stripped stdout; an in-range value is
returned; a script printing 0.7 with exit code 0 yields 0.7 and one
printing 1.5 raises the ScoringError ValueError; a timeout instead
escapes as the uncaught subprocess timeout exception. -/
theorem script_scorer_amended :
    (∀ (rc : Int) (out err : String), rc ≠ 0 →
      ScriptScorer.score (.completed rc out err) =
        .error (.valueError ("Script execution failed: " ++ err))) ∧
    (∀ out err : String, parsePyFloat out.trim = none →
      ScriptScorer.score (.completed 0 out err) =
        .error (.valueError ("Invalid score output: " ++ out.trim))) ∧
    (∀ (out err : String) (q : ℚ), parsePyFloat out.trim = some q → ¬(0 ≤ q ∧ q ≤ 1) →
      ScriptScorer.score (.completed 0 out err) =
        .error (.valueError ("Invalid score output: " ++ out.trim))) ∧
    (∀ (out err : String) (q : ℚ), parsePyFloat out.trim = some q → 0 ≤ q → q ≤ 1 →
      ScriptScorer.score (.completed 0 out err) = .ok q) ∧
    ScriptScorer.score .timedOut = .error .timeoutExpired ∧
    ScriptScorer.score (.completed 0 "0.7" "") = .ok (7 / 10) ∧
    ScriptScorer.score (.completed 0 "1.5" "") =
      .error (.valueError "Invalid score output: 1.5") := by
  refine ⟨?_, ?_, ?_, ?_, rfl, ?_, ?_⟩
  · intro rc out err hrc
    simp [ScriptScorer.score, hrc]
  · intro out err hparse
    simp [ScriptScorer.score, hparse]
  · intro out err q hparse hrange
    simp [ScriptScorer.score, hparse, hrange]
  · intro out err q hparse h0 h1
    simp [ScriptScorer.score, hparse, h0, h1]
  · with_unfolding_all rfl
  · with_unfolding_all rfl

/-- Witness for the amended C7 at concrete process outcomes. -/
theorem script_scorer_amended_witness :
    ScriptScorer.score (.completed 2 "x" "boom") =
      .error (.valueError ("Script execution failed: " ++ "boom")) ∧
    ScriptScorer.score (.completed 0 "not a number" "") =
      .error (.valueError ("Invalid score output: " ++ ("not a number" : String).trim)) :=
  ⟨script_scorer_amended.1 2 "x" "boom" (by norm_num),
    script_scorer_amended.2.1 "not a number" "" (by with_unfolding_all rfl)⟩

/-- C8 counterexample: the claim ties the division by 10 to the third
pattern, but the code divides the value of any pattern whenever the
response contains the substring slash one zero.  On the response
score colon 2 space 5/10, the code divides the second-pattern value 2
and returns 0.2, while the claim as stated reaches the third pattern and
returns 0.5. -/
theorem extract_division_rule_cex :
    extract_score_from_response "score: 2 5/10" = .ok (1 / 5) ∧
    extract_score_claim "score: 2 5/10" = .ok (1 / 2) := by
  constructor
  · with_unfolding_all rfl
  · with_unfolding_all rfl

/-- C8 as amended: the extractor tries, in order, a bare decimal token
already in [0,1], a score-colon pattern, and a slash-ten pattern; the
value extracted by any pattern is divided by 10 whenever the response
contains the substring slash one zero and the value exceeds 1; the first
pattern yielding an in-range value determines the score; if none does, a
ValueError citing the raw response is raised: the code extractor agrees
with this description on every response. -/
theorem extract_score_normalisation_amended (response : String) :
    extract_score_from_response response = extract_score_amended response := by
  have hf : ∀ g?, patternScore response g? = amendedPatternScore response g? := by
    intro g?
    cases g? with
    | none => rfl
    | some g =>
      cases hp : parsePyFloat g with
      | none => simp [patternScore, amendedPatternScore, hp, normalizeExtracted]
      | some q => simp [patternScore, amendedPatternScore, hp, normalizeExtracted]
  unfold extract_score_from_response extract_score_amended patternCandidates
  simp only [List.findSome?, hf]
  cases amendedPatternScore response (scanA none response.toList) <;>
    cases amendedPatternScore response (scanB response.toList) <;>
      cases amendedPatternScore response (scanC response.toList) <;>
        simp_all

/-- A read on a node whose reason cache is set returns the cached text,
changes nothing, and issues no request. -/
lemma read_reason_cached (llm : Except Unit String) (n : RubricNode) (r0 : String)
    (h : n.reasonCache = some r0) : read_reason llm n = .ok (r0, n, 0, 0) := by
  cases n with
  | mk nm ds cr cs sc s r =>
    simp only [RubricNode.reasonCache] at h
    subst h
    simp [read_reason]

/-- Packaging children whose reason caches are all set reads the cached
texts only: no child changes, no request, no warning. -/
lemma read_reason_list_cached (llm : Except Unit String) (l : List RubricNode)
    (h : ∀ ch ∈ l, ch.reasonCache.isSome) :
    read_reason_list llm l = .ok (l, 0, 0) := by
  induction l with
  | nil => simp [read_reason_list]
  | cons c cs ih =>
    obtain ⟨r0, hr0⟩ := Option.isSome_iff_exists.mp (h c (List.mem_cons_self _ _))
    rw [read_reason_list, read_reason_cached llm c r0 hr0,
      ih (fun ch hch => h ch (List.mem_cons_of_mem _ hch))]

/-- C9: a parent reason is not computed during evaluation (a successful
compute_score on a parent leaves the reason cache unset); it is computed
on the first read of the reason property with exactly one explanation
request, whose result is cached, so a read of any node with a cached
reason issues zero requests and returns the cache unchanged; and when
the explanation request fails, the read still succeeds, emits one
warning, returns the deterministic templated fallback, caches it, and
leaves the computed score untouched. -/
theorem lazy_reason_synthesis :
    (∀ (nm ds : String) (cr : Bool) (c : RubricNode) (cs : List RubricNode)
       (sc : Option ScorerOutcome) (s : Option ℚ) (q : ℚ) (n' : RubricNode),
      compute_score (.mk nm ds cr (c :: cs) sc s none) = .ok (q, n') →
      n'.reasonCache = none) ∧
    (∀ (llm : Except Unit String) (n : RubricNode) (r0 : String),
      n.reasonCache = some r0 → read_reason llm n = .ok (r0, n, 0, 0)) ∧
    (∀ (llm : Except Unit String) (nm ds : String) (cr : Bool) (c : RubricNode)
       (cs : List RubricNode) (sc : Option ScorerOutcome) (sv : ℚ),
      (∀ ch ∈ c :: cs, ch.reasonCache.isSome) →
      ∃ rsn n',
        read_reason llm (.mk nm ds cr (c :: cs) sc (some sv) none) =
          .ok (rsn, n', 1, match llm with | .ok _ => 0 | .error _ => 1) ∧
        n'.reasonCache = some rsn ∧ n'.scoreCache = some sv ∧ n'.children = c :: cs ∧
        (llm = .error () → rsn = mkFallback sv (c :: cs).length) ∧
        (∀ t, llm = .ok t → rsn = t.trim)) := by
  refine ⟨?_, read_reason_cached, ?_⟩
  · intro nm ds cr c cs sc s q n' h
    simp only [compute_score] at h
    cases hl : compute_score_list (c :: cs) with
    | error e => rw [hl] at h; cases h
    | ok results =>
      rw [hl] at h
      simp only [Except.ok.injEq, Prod.mk.injEq] at h
      rw [← h.2]
      rfl
  · intro llm nm ds cr c cs sc sv hch
    rw [read_reason, read_reason_list_cached llm (c :: cs) hch]
    cases llm with
    | ok text =>
      refine ⟨text.trim, .mk nm ds cr (c :: cs) sc (some sv) (some text.trim),
        rfl, rfl, rfl, rfl, ?_, ?_⟩
      · intro h; cases h
      · intro t ht; cases ht; rfl
    | error u =>
      refine ⟨mkFallback sv (c :: cs).length,
        .mk nm ds cr (c :: cs) sc (some sv) (some (mkFallback sv (c :: cs).length)),
        rfl, rfl, rfl, rfl, ?_, ?_⟩
      · intro h; rfl
      · intro t ht; cases ht

/-- Leaf with both caches already populated. -/
def cachedLeaf : RubricNode :=
  .mk "l" "d" true [] (some (.ok (.pyPair 1 "ok"))) (some 1) (some "ok")

/-- Witness for C9: a cached node re-reads without a request, and a
fresh parent read under a failing completion service returns the
templated fallback with one request and one warning, score intact. -/
theorem lazy_reason_synthesis_witness :
    read_reason (.error ()) cachedLeaf = .ok ("ok", cachedLeaf, 0, 0) ∧
    (∃ rsn n',
      read_reason (.error ()) (.mk "p" "d" false [cachedLeaf] none (some (1 / 2)) none) =
        .ok (rsn, n', 1,
          match (Except.error () : Except Unit String) with | .ok _ => 0 | .error _ => 1) ∧
      n'.reasonCache = some rsn ∧ n'.scoreCache = some (1 / 2) ∧ n'.children = [cachedLeaf] ∧
      ((Except.error () : Except Unit String) = .error () →
        rsn = mkFallback (1 / 2) [cachedLeaf].length) ∧
      (∀ t, (Except.error () : Except Unit String) = .ok t → rsn = t.trim)) :=
  ⟨lazy_reason_synthesis.2.1 (.error ()) cachedLeaf "ok" rfl,
    lazy_reason_synthesis.2.2 (.error ()) "p" "d" false cachedLeaf [] none (1 / 2)
      (fun ch hch => by
        cases hch with
        | head => rfl
        | tail _ h => cases h)⟩

mutual

/-- reset_scores leaves every cache in the subtree unset. -/
theorem reset_clears_aux : (n : RubricNode) → allCachesCleared (reset_scores n) = true
  | .mk nm ds cr cs sc s r => by
    simp only [reset_scores, allCachesCleared, Option.isNone_none, Bool.true_and]
    exact reset_clears_list_aux cs

/-- reset_scores_list leaves every cache in every subtree unset. -/
theorem reset_clears_list_aux :
    (l : List RubricNode) → allCachesClearedList (reset_scores_list l) = true
  | [] => rfl
  | c :: cs => by
    simp only [reset_scores_list, allCachesClearedList]
    rw [reset_clears_aux c, reset_clears_list_aux cs]
    rfl

end

/-- C10: reading the score property of a node whose cache is unset
(never evaluated, or cleared) returns the default 0.0 without raising;
reset_scores clears every cache in the tree, after which the score
property reads 0.0; and a successful compute_score stores the computed
score in the cache, so the cache is populated exactly between a
compute_score call and the next reset_scores. -/
theorem score_default_and_reset :
    (∀ n : RubricNode, n.scoreCache = none → RubricNode.score n = 0) ∧
    (∀ n : RubricNode, allCachesCleared (reset_scores n) = true) ∧
    (∀ n : RubricNode, RubricNode.score (reset_scores n) = 0) ∧
    (∀ (n : RubricNode) (q : ℚ) (n' : RubricNode),
      compute_score n = .ok (q, n') → n'.scoreCache = some q) := by
  refine ⟨?_, reset_clears_aux, ?_, ?_⟩
  · intro n h
    simp [RubricNode.score, h]
  · intro n
    cases n with
    | mk nm ds cr cs sc s r =>
      simp [reset_scores, RubricNode.score, RubricNode.scoreCache]
  · intro n q n' h
    cases n with
    | mk nm ds cr cs sc s r =>
      cases cs with
      | nil =>
        cases sc with
        | none => simp [compute_score] at h
        | some out =>
          cases out with
          | error e => simp [compute_score] at h
          | ok v =>
            cases v with
            | pyFloat q0 => simp [compute_score] at h
            | pyPair q0 rs =>
              simp only [compute_score, Except.ok.injEq, Prod.mk.injEq] at h
              rw [← h.2, ← h.1]
              rfl
      | cons c cs' =>
        simp only [compute_score] at h
        cases hl : compute_score_list (c :: cs') with
        | error e => rw [hl] at h; cases h
        | ok results =>
          rw [hl] at h
          simp only [Except.ok.injEq, Prod.mk.injEq] at h
          rw [← h.2, ← h.1]
          rfl

/-- Witness for C10: a fresh leaf reads score 0.0, and the evaluated
veto leaf carries its computed 0 in the cache. -/
theorem score_default_and_reset_witness :
    RubricNode.score (.mk "fresh" "d" false [] (some (.ok (.pyFloat 1))) none none) = 0 ∧
    vetoLeafA'.scoreCache = some 0 :=
  ⟨score_default_and_reset.1 (.mk "fresh" "d" false [] (some (.ok (.pyFloat 1))) none none) rfl,
    score_default_and_reset.2.2.2 vetoLeafA 0 vetoLeafA' rfl⟩
